import Mathlib

/-!
Shallow embedding of the pv-safe admission webhook: the risk-assessment
engine (`RiskCalculator` in internal/webhook/client.go), the snapshot
probe (internal/webhook/snapshot.go), and the admission adapter
(`Handler` in the webhook handler, as listed in docs/ARCHITECTURE.md).

Kubernetes cluster state is abstracted as a record of read-only lookup
functions returning `Except String` values, mirroring the Go client
calls that return `(value, error)` pairs.  Strings model the Go string
fields (reclaim policies, phases, kinds, operations) exactly as the
source compares them.
-/

namespace PVSafe

/-- Definition `UnknownDeletionPolicy` constant from snapshot.go. -/
def UnknownDeletionPolicy : String := "Unknown"

/-- Definition `BypassLabel` constant from the handler. -/
def BypassLabel : String := "pv-safe.io/force-delete"

/-- A PersistentVolume as read by the engine: name, the
`Spec.PersistentVolumeReclaimPolicy` string, and the optional
`Spec.ClaimRef` (namespace, name). -/
structure PV where
  name : String
  reclaimPolicy : String
  claimRef : Option (String × String)
deriving Repr, DecidableEq

/-- A PersistentVolumeClaim as read by the engine: namespace, name,
`Status.Phase`, and `Spec.VolumeName`. -/
structure PVC where
  ns : String
  name : String
  phase : String
  volumeName : String
deriving Repr, DecidableEq

/-- An unstructured VolumeSnapshot as read by the probe.
`sourcePVC` is `spec.source.persistentVolumeClaimName` (`none` models a
missing field or a NestedString error), `ready` is `status.readyToUse`
(defaulting to `false`), `className` is `spec.volumeSnapshotClassName`,
`restoreSize` is `status.restoreSize`. -/
structure Snapshot where
  name : String
  ns : String
  sourcePVC : Option String
  ready : Bool
  className : Option String
  restoreSize : Option String
  creationTime : Nat
deriving Repr, DecidableEq

/-- Definition `SnapshotInfo` from snapshot.go. -/
structure SnapshotInfo where
  name : String
  ns : String
  sourcePVC : String
  isReady : Bool
  deletionPolicy : String
  creationTime : Nat
  restoreSize : String
deriving Repr, DecidableEq

/-- A VolumeSnapshotClass: the only field the code reads is the
top-level `deletionPolicy` string (`none` models a missing field). -/
structure SnapshotClass where
  deletionPolicy : Option String
deriving Repr, DecidableEq

/-- Read-only cluster state: each field models one Kubernetes API read
used by the engine, returning either a value or an error string. -/
structure Cluster where
  getPV : String → Except String PV
  getPVC : String → String → Except String PVC
  listPVCs : String → Except String (List PVC)
  listSnapshots : String → Except String (List Snapshot)
  getSnapshotClass : String → Except String SnapshotClass

/-- Definition `getSnapshotClassDeletionPolicy` from snapshot.go: a lookup error is
propagated; a class without a `deletionPolicy` field yields `Unknown`. -/
def getSnapshotClassDeletionPolicy (c : Cluster) (className : String) :
    Except String String :=
  match c.getSnapshotClass className with
  | .error e => .error e
  | .ok cls =>
    match cls.deletionPolicy with
    | none => .ok UnknownDeletionPolicy
    | some p => .ok p

/-- The deletion policy computed for one snapshot inside
`HasReadySnapshot`: it starts at `Unknown` and is replaced by the class
policy only when the class name is present, non-empty, and the class
lookup succeeds. -/
def resolveDeletionPolicy (c : Cluster) (s : Snapshot) : String :=
  match s.className with
  | none => UnknownDeletionPolicy
  | some cn =>
    if cn = "" then UnknownDeletionPolicy
    else
      match getSnapshotClassDeletionPolicy c cn with
      | .error _ => UnknownDeletionPolicy
      | .ok p => p

/-- The `SnapshotInfo` record built inside the `HasReadySnapshot` loop
for a snapshot whose source PVC is `src` and which passed the ready
check. -/
def mkSnapshotInfo (c : Cluster) (s : Snapshot) (src : String) : SnapshotInfo :=
  { name := s.name
    ns := s.ns
    sourcePVC := src
    isReady := true
    deletionPolicy := resolveDeletionPolicy c s
    creationTime := s.creationTime
    restoreSize := s.restoreSize.getD "" }

/-- The iteration of `HasReadySnapshot` over the listed snapshots:
skip snapshots whose source PVC does not match, skip snapshots that are
not ready, return the first one whose resolved deletion policy is
`Retain`, and otherwise keep searching. -/
def findReadyRetainSnapshot (c : Cluster) (pvcName : String) :
    List Snapshot → Option SnapshotInfo
  | [] => none
  | s :: rest =>
    match s.sourcePVC with
    | none => findReadyRetainSnapshot c pvcName rest
    | some src =>
      if src ≠ pvcName then findReadyRetainSnapshot c pvcName rest
      else if !s.ready then findReadyRetainSnapshot c pvcName rest
      else if resolveDeletionPolicy c s = "Retain" then some (mkSnapshotInfo c s src)
      else findReadyRetainSnapshot c pvcName rest

/-- Definition `HasReadySnapshot` from snapshot.go.  The Go function returns
`(found, info, err)` with `found = true` exactly when `info` is
non-nil, so the result is modelled as `Except error (Option info)`. -/
def HasReadySnapshot (c : Cluster) (ns pvcName : String) :
    Except String (Option SnapshotInfo) :=
  match c.listSnapshots ns with
  | .error e =>
    .error ("failed to list volumesnapshots (CSI snapshots may not be available): " ++ e)
  | .ok items => .ok (findReadyRetainSnapshot c pvcName items)

/-- Definition `RiskyPVC` from client.go; `hasSnapshot` and `snapshotInfo` default
to the Go zero values. -/
structure RiskyPVC where
  name : String
  ns : String
  pvName : String
  reason : String
  hasSnapshot : Bool := false
  snapshotInfo : String := ""
deriving Repr, DecidableEq

/-- Definition `RiskAssessment` from client.go; list and strings default to the Go
zero values. -/
structure RiskAssessment where
  isRisky : Bool
  riskyPVCs : List RiskyPVC := []
  message : String := ""
  suggestion : String := ""
deriving Repr, DecidableEq

/-- Definition `isPVRisky` from client.go: safe only for Retain, risky for Delete,
risky by default for anything else. -/
def isPVRisky (pv : PV) : Bool :=
  if pv.reclaimPolicy = "Retain" then false
  else if pv.reclaimPolicy = "Delete" then true
  else true

/-- Definition `isPVCRisky` from client.go.  `hasChecker` models
`rc.snapshotChecker != nil`; when the checker is absent or the snapshot
query fails or finds nothing, the PVC falls through to risky. -/
def isPVCRisky (c : Cluster) (hasChecker : Bool) (ns pvcName : String) (pv : PV) :
    Bool × String × Option SnapshotInfo :=
  if pv.reclaimPolicy = "Retain" then (false, "PV has Retain reclaim policy", none)
  else
    match (if hasChecker then HasReadySnapshot c ns pvcName else Except.ok none) with
    | .ok (some info) =>
      (false, "Ready VolumeSnapshot \x27" ++ info.name ++ "\x27 exists with Retain policy",
        some info)
    | _ => (true, "PV has " ++ pv.reclaimPolicy ++ " reclaim policy, no snapshot found", none)

/-- Definition `buildPVCBlockMessage` from client.go. -/
def buildPVCBlockMessage (risky : RiskyPVC) : String :=
  "DELETION BLOCKED: PVC \x27" ++ risky.ns ++ "/" ++ risky.name ++
    "\x27 would lose data permanently\n\nReason: " ++ risky.reason ++ "\n"

/-- Definition `buildPVCSuggestions` from client.go. -/
def buildPVCSuggestions (ns pvcName pvName : String) : String :=
  "\nTo safely delete this PVC:\n" ++
  "  1. Create a VolumeSnapshot of the data\n" ++
  "  2. OR change PV reclaim policy to Retain:\n" ++
  "     kubectl patch pv " ++ pvName ++
    " -p \x27\x7b\"spec\":\x7b\"persistentVolumeReclaimPolicy\":\"Retain\"\x7d\x7d\x27\n" ++
  "\n  3. OR force delete (will lose data):\n" ++
  "     kubectl label pvc " ++ pvcName ++ " -n " ++ ns ++ " pv-safe.io/force-delete=true\n" ++
  "     kubectl delete pvc " ++ pvcName ++ " -n " ++ ns ++ "\n" ++
  "\n  4. Then retry the deletion\n"

/-- Definition `buildPVBlockMessage` from client.go. -/
def buildPVBlockMessage (pv : PV) (risky : RiskyPVC) : String :=
  let msg := "DELETION BLOCKED: PV \x27" ++ pv.name ++
    "\x27 would lose data permanently\n\nReason: " ++ risky.reason ++ "\n"
  if risky.ns ≠ "" ∧ risky.name ≠ "" then
    msg ++ "Bound to: " ++ risky.ns ++ "/" ++ risky.name ++ "\n"
  else msg

/-- Definition `buildPVSuggestions` from client.go. -/
def buildPVSuggestions (pv : PV) : String :=
  "\nTo safely delete this PV:\n" ++
  "  1. Create a VolumeSnapshot of the data\n" ++
  "  2. OR change reclaim policy to Retain:\n" ++
  "     kubectl patch pv " ++ pv.name ++
    " -p \x27\x7b\"spec\":\x7b\"persistentVolumeReclaimPolicy\":\"Retain\"\x7d\x7d\x27\n" ++
  "\n  3. OR force delete (will lose data):\n" ++
  "     kubectl label pv " ++ pv.name ++ " pv-safe.io/force-delete=true\n" ++
  "     kubectl delete pv " ++ pv.name ++ "\n" ++
  "\n  4. Then retry the deletion\n"

/-- Definition `buildNamespaceBlockMessage` from client.go. -/
def buildNamespaceBlockMessage (ns : String) (riskyPVCs : List RiskyPVC) : String :=
  "DELETION BLOCKED: Namespace \x27" ++ ns ++ "\x27 contains " ++
    toString riskyPVCs.length ++ " PVC(s) that would lose data permanently\n\n" ++
  "Risky PVCs:\n" ++
  (riskyPVCs.foldl (fun acc risky => acc ++ "  - " ++ risky.name ++ ": " ++ risky.reason ++ "\n") "")

/-- Definition `buildSuggestions` (namespace remediation) from client.go. -/
def buildSuggestions (ns : String) (riskyPVCs : List RiskyPVC) : String :=
  "\nTo safely delete this resource:\n" ++
  "  1. Create VolumeSnapshots for the PVCs\n" ++
  "  2. OR change PV reclaim policy to Retain:\n" ++
  (riskyPVCs.foldl
    (fun acc risky => acc ++ "     kubectl patch pv " ++ risky.pvName ++
      " -p \x27\x7b\"spec\":\x7b\"persistentVolumeReclaimPolicy\":\"Retain\"\x7d\x7d\x27\n") "") ++
  "\n  3. OR force delete (will lose data):\n" ++
  "     kubectl label namespace " ++ ns ++ " pv-safe.io/force-delete=true\n" ++
  "     kubectl delete namespace " ++ ns ++ "\n" ++
  "\n  4. Then retry the deletion\n"

/-- The `RiskyPVC` record built from one risky PVC evaluation, shared by
the PVC and namespace assessments in client.go. -/
def mkRiskyPVC (ns pvcName pvName reason : String) (snapInfo : Option SnapshotInfo) :
    RiskyPVC :=
  { name := pvcName
    ns := ns
    pvName := pvName
    reason := reason
    hasSnapshot := snapInfo.isSome
    snapshotInfo := match snapInfo with | some i => i.name | none => "" }

/-- Definition `AssessPVDeletion` from client.go.  Note the not-risky branch leaves
the message empty. -/
def AssessPVDeletion (c : Cluster) (pvName : String) : Except String RiskAssessment :=
  match c.getPV pvName with
  | .error e => .error ("failed to get PV " ++ pvName ++ ": " ++ e)
  | .ok pv =>
    if isPVRisky pv then
      let claimNS := match pv.claimRef with | some r => r.1 | none => ""
      let claimName := match pv.claimRef with | some r => r.2 | none => ""
      let risky : RiskyPVC :=
        { name := claimName
          ns := claimNS
          pvName := pv.name
          reason := "PV has " ++ pv.reclaimPolicy ++ " reclaim policy, no snapshot found" }
      .ok { isRisky := true
            riskyPVCs := [risky]
            message := buildPVBlockMessage pv risky
            suggestion := buildPVSuggestions pv }
    else .ok { isRisky := false }

/-- Definition `AssessPVCDeletion` from client.go. -/
def AssessPVCDeletion (c : Cluster) (hasChecker : Bool) (ns name : String) :
    Except String RiskAssessment :=
  match c.getPVC ns name with
  | .error e => .error ("failed to get PVC " ++ ns ++ "/" ++ name ++ ": " ++ e)
  | .ok pvc =>
    if pvc.phase ≠ "Bound" then
      .ok { isRisky := false
            message := "PVC " ++ ns ++ "/" ++ name ++ " is not bound to a PV" }
    else
      match c.getPV pvc.volumeName with
      | .error e => .error ("failed to get PV " ++ pvc.volumeName ++ ": " ++ e)
      | .ok pv =>
        let r := isPVCRisky c hasChecker ns name pv
        if r.1 then
          let risky := mkRiskyPVC ns name pv.name r.2.1 r.2.2
          .ok { isRisky := true
                riskyPVCs := [risky]
                message := buildPVCBlockMessage risky
                suggestion := buildPVCSuggestions ns name pv.name }
        else
          .ok { isRisky := false
                message := match r.2.2 with | some _ => r.2.1 | none => "" }

/-- The per-PVC loop of `AssessNamespaceDeletion`: unbound PVCs are
skipped, PVCs whose bound-PV fetch fails are skipped (`continue`), and
each risky PVC sets the flag and appends a record. -/
def nsLoop (c : Cluster) (hasChecker : Bool) :
    List PVC → RiskAssessment → RiskAssessment
  | [], acc => acc
  | pvc :: rest, acc =>
    if pvc.phase ≠ "Bound" then nsLoop c hasChecker rest acc
    else
      match c.getPV pvc.volumeName with
      | .error _ => nsLoop c hasChecker rest acc
      | .ok pv =>
        let r := isPVCRisky c hasChecker pvc.ns pvc.name pv
        if r.1 then
          nsLoop c hasChecker rest
            { acc with
              isRisky := true
              riskyPVCs := acc.riskyPVCs ++ [mkRiskyPVC pvc.ns pvc.name pv.name r.2.1 r.2.2] }
        else nsLoop c hasChecker rest acc

/-- Body of `AssessNamespaceDeletion` after the PVC list call. -/
def assessNamespaceWithList (c : Cluster) (hasChecker : Bool) (ns : String)
    (pvcs : List PVC) : RiskAssessment :=
  if pvcs.length = 0 then
    { isRisky := false, message := "Namespace " ++ ns ++ " has no PVCs" }
  else
    let a := nsLoop c hasChecker pvcs { isRisky := false, riskyPVCs := [] }
    if a.isRisky then
      { a with
        message := buildNamespaceBlockMessage ns a.riskyPVCs
        suggestion := buildSuggestions ns a.riskyPVCs }
    else a

/-- Definition `AssessNamespaceDeletion` from client.go. -/
def AssessNamespaceDeletion (c : Cluster) (hasChecker : Bool) (ns : String) :
    Except String RiskAssessment :=
  match c.listPVCs ns with
  | .error e => .error ("failed to list PVCs in namespace " ++ ns ++ ": " ++ e)
  | .ok pvcs => .ok (assessNamespaceWithList c hasChecker ns pvcs)

/-- The payload of `request.oldObject.raw` as seen by `hasBypassLabel`:
the bytes either fail to parse, or parse to an object whose label map is
absent (`none`) or present as an association list. -/
inductive RawObject where
  | unparseable
  | parsed (labels : Option (List (String × String)))
deriving Repr, DecidableEq

/-- The admission-request fields the handler reads. -/
structure AdmissionRequest where
  uid : String
  operation : String
  kind : String
  ns : String
  name : String
  username : String
  oldObjectRaw : Option RawObject
deriving Repr, DecidableEq

/-- The `metav1.Status` fields the handler writes; defaults are the Go
zero values. -/
structure StatusResult where
  status : String := ""
  message : String := ""
  reason : String := ""
  code : Nat := 0
deriving Repr, DecidableEq

/-- The admission-response fields the handler writes. -/
structure AdmissionResponse where
  uid : String
  allowed : Bool
  result : Option StatusResult := none
deriving Repr, DecidableEq

/-- Go map lookup over the label association list: first matching key. -/
def lookupLabel : List (String × String) → String → Option String
  | [], _ => none
  | (k, v) :: rest, key => if k = key then some v else lookupLabel rest key

/-- Definition `hasBypassLabel` from the handler: nil raw bytes, parse failure and a
nil label map are all soft negatives; otherwise the label value must be
exactly "true". -/
def hasBypassLabel (req : AdmissionRequest) : Bool :=
  match req.oldObjectRaw with
  | none => false
  | some .unparseable => false
  | some (.parsed none) => false
  | some (.parsed (some labels)) =>
    match lookupLabel labels BypassLabel with
    | none => false
    | some v => v = "true"

/-- The kind switch of `assessAndDecide`: `none` models the default
branch for unknown kinds, which skips the engine. -/
def assessFor (c : Cluster) (hasChecker : Bool) (req : AdmissionRequest) :
    Option (Except String RiskAssessment) :=
  match req.kind with
  | "Namespace" => some (AssessNamespaceDeletion c hasChecker req.name)
  | "PersistentVolumeClaim" => some (AssessPVCDeletion c hasChecker req.ns req.name)
  | "PersistentVolume" => some (AssessPVDeletion c req.name)
  | _ => none

/-- The tail of `assessAndDecide` after the bypass check: route by kind,
allow on unknown kind, allow with explanation on engine error, deny with
Failure/Forbidden/403 on a risky assessment, allow otherwise. -/
def routeByKind (c : Cluster) (hasChecker : Bool) (req : AdmissionRequest) :
    AdmissionResponse :=
  match assessFor c hasChecker req with
  | none => { uid := req.uid, allowed := true }
  | some (.error e) =>
    { uid := req.uid
      allowed := true
      result := some { message := "Risk assessment error (allowed): " ++ e } }
  | some (.ok assessment) =>
    if assessment.isRisky then
      { uid := req.uid
        allowed := false
        result := some
          { status := "Failure"
            message := assessment.message ++ assessment.suggestion
            reason := "Forbidden"
            code := 403 } }
    else
      { uid := req.uid
        allowed := true
        result := some { message := "Deletion allowed - safe operation" } }

/-- Definition `assessAndDecide` from the handler. -/
def assessAndDecide (c : Cluster) (hasChecker : Bool) (req : AdmissionRequest) :
    AdmissionResponse :=
  if hasBypassLabel req then
    { uid := req.uid
      allowed := true
      result := some { message := "Deletion allowed via bypass label " ++ BypassLabel } }
  else routeByKind c hasChecker req

/-- Definition `handleAdmissionRequest` from the handler: only DELETE operations
reach `assessAndDecide`. -/
def handleAdmissionRequest (c : Cluster) (hasChecker : Bool) (req : AdmissionRequest) :
    AdmissionResponse :=
  if req.operation = "DELETE" then assessAndDecide c hasChecker req
  else { uid := req.uid, allowed := true, result := some { message := "Request allowed" } }

/-- Definition `pat` occurs as a contiguous substring of `s`. -/
def StrContains (s pat : String) : Prop :=
  ∃ a b : String, s = a ++ pat ++ b

/-- Acceptance predicate of the `HasReadySnapshot` loop: the snapshot's
declared source PVC matches, it is ready, and its resolved deletion
policy is Retain. -/
def acceptsSnapshot (c : Cluster) (pvcName : String) (s : Snapshot) : Bool :=
  s.sourcePVC == some pvcName && s.ready && resolveDeletionPolicy c s == "Retain"

/-- One PVC makes the namespace verdict risky: it is Bound, its bound PV
can be fetched, and `isPVCRisky` holds for it. -/
def pvcDeniedB (c : Cluster) (hasChecker : Bool) (pvc : PVC) : Bool :=
  pvc.phase == "Bound" &&
    (match c.getPV pvc.volumeName with
     | .error _ => false
     | .ok pv => (isPVCRisky c hasChecker pvc.ns pvc.name pv).1)

/-- Fixture: PVC prod/db is Bound to pv-2 with reclaim Delete; no
snapshots anywhere. -/
def deleteNoSnapCluster : Cluster :=
  { getPV := fun n =>
      if n = "pv-2" then .ok { name := "pv-2", reclaimPolicy := "Delete", claimRef := none }
      else .error "pv not found"
    getPVC := fun ns n =>
      if ns = "prod" && n = "db" then
        .ok { ns := "prod", name := "db", phase := "Bound", volumeName := "pv-2" }
      else .error "pvc not found"
    listPVCs := fun _ => .ok []
    listSnapshots := fun _ => .ok []
    getSnapshotClass := fun _ => .error "class not found" }

/-- Fixture: DELETE request for PVC prod/db with no prior-object bytes. -/
def deletePVCReq : AdmissionRequest :=
  { uid := "u1", operation := "DELETE", kind := "PersistentVolumeClaim",
    ns := "prod", name := "db", username := "alice", oldObjectRaw := none }

/-- Fixture: PVC prod/web is Bound to pv-1 with reclaim Retain. -/
def retainCluster : Cluster :=
  { getPV := fun n =>
      if n = "pv-1" then
        .ok { name := "pv-1", reclaimPolicy := "Retain", claimRef := some ("prod", "web") }
      else .error "pv not found"
    getPVC := fun ns n =>
      if ns = "prod" && n = "web" then
        .ok { ns := "prod", name := "web", phase := "Bound", volumeName := "pv-1" }
      else .error "pvc not found"
    listPVCs := fun _ => .ok []
    listSnapshots := fun _ => .ok []
    getSnapshotClass := fun _ => .error "class not found" }

/-- Fixture: DELETE request for PVC prod/web. -/
def retainPVCReq : AdmissionRequest :=
  { uid := "u5", operation := "DELETE", kind := "PersistentVolumeClaim",
    ns := "prod", name := "web", username := "alice", oldObjectRaw := none }

/-- Fixture: a Bound PVC whose bound PV cannot be fetched. -/
def pvcP1 : PVC := { ns := "ns1", name := "p1", phase := "Bound", volumeName := "pv-x" }

/-- Fixture: namespace ns1 holds only `pvcP1`, and every PV fetch fails. -/
def pvFetchFailCluster : Cluster :=
  { getPV := fun _ => .error "connection refused"
    getPVC := fun _ _ => .error "pvc not found"
    listPVCs := fun n => if n = "ns1" then .ok [pvcP1] else .error "list failed"
    listSnapshots := fun _ => .ok []
    getSnapshotClass := fun _ => .error "class not found" }

/-- Fixture: two ready snapshots of prod/db; the first resolves to a
Delete-policy class, the second to a Retain-policy class. -/
def snapList : List Snapshot :=
  [ { name := "snap-0", ns := "prod", sourcePVC := some "db", ready := true,
      className := some "c-del", restoreSize := none, creationTime := 1 },
    { name := "snap-1", ns := "prod", sourcePVC := some "db", ready := true,
      className := some "c-ret", restoreSize := some "1Gi", creationTime := 2 } ]

/-- Fixture: cluster exposing `snapList` in namespace prod together with
the two snapshot classes. -/
def snapCluster : Cluster :=
  { getPV := fun _ => .error "pv not found"
    getPVC := fun _ _ => .error "pvc not found"
    listPVCs := fun _ => .ok []
    listSnapshots := fun n => if n = "prod" then .ok snapList else .ok []
    getSnapshotClass := fun n =>
      if n = "c-del" then .ok { deletionPolicy := some "Delete" }
      else if n = "c-ret" then .ok { deletionPolicy := some "Retain" }
      else .error "class not found" }

/-- Fixture: PVC staging/a, Bound to a Retain PV. -/
def pvcA : PVC := { ns := "staging", name := "a", phase := "Bound", volumeName := "pv-a" }

/-- Fixture: PVC staging/b, Bound to a Delete PV without snapshots. -/
def pvcB : PVC := { ns := "staging", name := "b", phase := "Bound", volumeName := "pv-b" }

/-- Fixture: namespace staging with one safe and one risky PVC. -/
def mixedCluster : Cluster :=
  { getPV := fun n =>
      if n = "pv-a" then
        .ok { name := "pv-a", reclaimPolicy := "Retain", claimRef := some ("staging", "a") }
      else if n = "pv-b" then
        .ok { name := "pv-b", reclaimPolicy := "Delete", claimRef := some ("staging", "b") }
      else .error "pv not found"
    getPVC := fun _ _ => .error "pvc not found"
    listPVCs := fun n => if n = "staging" then .ok [pvcA, pvcB] else .ok []
    listSnapshots := fun _ => .ok []
    getSnapshotClass := fun _ => .error "class not found" }

/-- Fixture: PVC prod/pending exists but is not Bound; prod has no PVCs
listed. -/
def unboundCluster : Cluster :=
  { getPV := fun _ => .error "pv not found"
    getPVC := fun ns n =>
      if ns = "prod" && n = "pending" then
        .ok { ns := "prod", name := "pending", phase := "Pending", volumeName := "" }
      else .error "pvc not found"
    listPVCs := fun _ => .ok []
    listSnapshots := fun _ => .ok []
    getSnapshotClass := fun _ => .error "class not found" }

/-- Fixture: DELETE request whose prior object carries the bypass label
with value "true". -/
def bypassReq : AdmissionRequest :=
  { uid := "u3", operation := "DELETE", kind := "PersistentVolumeClaim",
    ns := "prod", name := "db", username := "bob",
    oldObjectRaw := some (.parsed (some [("pv-safe.io/force-delete", "true")])) }

/-- Fixture: DELETE request for a PVC that does not exist, so the engine
errors. -/
def errReq : AdmissionRequest :=
  { uid := "u7", operation := "DELETE", kind := "PersistentVolumeClaim",
    ns := "prod", name := "ghost", username := "alice", oldObjectRaw := none }

/-- Fixture: DELETE request carrying no prior-object bytes. -/
def noRawReq : AdmissionRequest :=
  { uid := "u10", operation := "DELETE", kind := "PersistentVolume",
    ns := "", name := "pv-2", username := "alice", oldObjectRaw := none }

/-- Fixture: the assessment produced for the unbound PVC prod/pending. -/
def unboundAssessment : RiskAssessment :=
  { isRisky := false, riskyPVCs := []
    message := "PVC prod/pending is not bound to a PV", suggestion := "" }

/-- Fixture: the assessment produced for a namespace with no PVCs. -/
def emptyNsAssessment : RiskAssessment :=
  { isRisky := false, riskyPVCs := []
    message := "Namespace prod has no PVCs", suggestion := "" }

theorem listAny_perm {α : Type} (p : α → Bool) {l l' : List α} (h : l.Perm l') :
    l.any p = l'.any p := by
  refine Bool.eq_iff_iff.mpr ?_
  simp only [List.any_eq_true]
  exact ⟨fun ⟨x, hx, hp⟩ => ⟨x, h.mem_iff.mp hx, hp⟩,
         fun ⟨x, hx, hp⟩ => ⟨x, h.mem_iff.mpr hx, hp⟩⟩

theorem nsLoop_isRisky (c : Cluster) (ck : Bool) (l : List PVC) (acc : RiskAssessment) :
    (nsLoop c ck l acc).isRisky = (acc.isRisky || l.any (pvcDeniedB c ck)) := by
  induction l generalizing acc with
  | nil => simp [nsLoop]
  | cons a l ih =>
    rw [nsLoop]
    by_cases hp : a.phase ≠ "Bound"
    · rw [if_pos hp]
      have hb : (a.phase == "Bound") = false := by
        simp only [ne_eq] at hp
        simp [hp]
      simp [ih, pvcDeniedB, hb]
    · rw [if_neg hp]
      simp only [ne_eq, not_not] at hp
      have hb : (a.phase == "Bound") = true := by simp [hp]
      cases hg : c.getPV a.volumeName with
      | error e => simp [ih, pvcDeniedB, hb, hg]
      | ok pv =>
        by_cases hr : (isPVCRisky c ck a.ns a.name pv).1 = true
        · simp [hr, ih, pvcDeniedB, hb, hg]
        · simp [hr, ih, pvcDeniedB, hb, hg]

theorem nsLoop_risky_iff (c : Cluster) (ck : Bool) (l : List PVC) (acc : RiskAssessment)
    (h : acc.isRisky = true ↔ acc.riskyPVCs ≠ []) :
    (nsLoop c ck l acc).isRisky = true ↔ (nsLoop c ck l acc).riskyPVCs ≠ [] := by
  induction l generalizing acc with
  | nil => simpa [nsLoop] using h
  | cons a l ih =>
    rw [nsLoop]
    by_cases hp : a.phase ≠ "Bound"
    · rw [if_pos hp]; exact ih acc h
    · rw [if_neg hp]
      cases hg : c.getPV a.volumeName with
      | error e => exact ih acc h
      | ok pv =>
        by_cases hr : (isPVCRisky c ck a.ns a.name pv).1 = true
        · simp only [hr, if_true]
          exact ih _ (by simp)
        · simp only [hr, if_false]
          exact ih acc h

theorem assessNamespaceWithList_isRisky (c : Cluster) (ck : Bool) (ns : String)
    (l : List PVC) :
    (assessNamespaceWithList c ck ns l).isRisky = l.any (pvcDeniedB c ck) := by
  unfold assessNamespaceWithList
  by_cases h : l.length = 0
  · rw [if_pos h, List.length_eq_zero.mp h]
    rfl
  · rw [if_neg h]
    simp only [nsLoop_isRisky, Bool.false_or]
    split
    · rfl
    · simp [nsLoop_isRisky]

theorem findReadyRetain_eq_find (c : Cluster) (pvcName : String) (items : List Snapshot) :
    findReadyRetainSnapshot c pvcName items =
      (items.find? (acceptsSnapshot c pvcName)).map (fun s => mkSnapshotInfo c s pvcName) := by
  induction items with
  | nil => rfl
  | cons s rest ih =>
    rw [findReadyRetainSnapshot]
    cases hs : s.sourcePVC with
    | none =>
      have ha : acceptsSnapshot c pvcName s = false := by simp [acceptsSnapshot, hs]
      simp [ha, ih]
    | some src =>
      by_cases he : src = pvcName
      · subst he
        by_cases hr : s.ready = true
        · by_cases hpol : resolveDeletionPolicy c s = "Retain"
          · have ha : acceptsSnapshot c src s = true := by
              simp [acceptsSnapshot, hs, hr, hpol]
            simp [hs, hr, hpol, ha]
          · have ha : acceptsSnapshot c src s = false := by
              simp [acceptsSnapshot, hs, hr, hpol]
            simp [hs, hr, hpol, ha, ih]
        · have ha : acceptsSnapshot c src s = false := by
            simp [acceptsSnapshot, hs, hr]
          simp [hs, hr, ha, ih]
      · have ha : acceptsSnapshot c pvcName s = false := by
          simp [acceptsSnapshot, hs, he]
        simp [hs, he, ha, ih]

/-- Claim C4 (counterexample): on a PV with Retain policy, `AssessPVDeletion`
returns not risky but with an *empty* message, not the claimed
"PV has Retain reclaim policy". -/
theorem assessPV_retain_empty_message_cex :
    AssessPVDeletion retainCluster "pv-1" =
      .ok { isRisky := false, riskyPVCs := [], message := "", suggestion := "" }
    ∧ ("" : String) ≠ "PV has Retain reclaim policy" :=
  ⟨rfl, by decide⟩

/-- Claim C4 (amended): `AssessPVDeletion` on a successfully fetched PV
returns not risky (with empty message) when the reclaim policy is
Retain, risky when it is Delete, and risky for any other (unknown/unset)
policy. -/
theorem assessPV_policy_verdicts (c : Cluster) (pvName : String) (pv : PV)
    (h : c.getPV pvName = .ok pv) :
    (pv.reclaimPolicy = "Retain" →
      AssessPVDeletion c pvName =
        .ok { isRisky := false, riskyPVCs := [], message := "", suggestion := "" })
    ∧ (pv.reclaimPolicy = "Delete" →
        ∃ a, AssessPVDeletion c pvName = .ok a ∧ a.isRisky = true)
    ∧ (pv.reclaimPolicy ≠ "Retain" →
        ∃ a, AssessPVDeletion c pvName = .ok a ∧ a.isRisky = true) := by
  have hrisky : ∀ _ : pv.reclaimPolicy ≠ "Retain",
      ∃ a, AssessPVDeletion c pvName = .ok a ∧ a.isRisky = true := by
    intro hpol
    have hb : isPVRisky pv = true := by
      unfold isPVRisky
      rw [if_neg hpol]
      split <;> rfl
    simp only [AssessPVDeletion, h]
    rw [if_pos hb]
    exact ⟨_, rfl, rfl⟩
  refine ⟨?_, fun hpol => hrisky (by rw [hpol]; decide), hrisky⟩
  intro hpol
  have hb : isPVRisky pv = false := by simp [isPVRisky, hpol]
  simp only [AssessPVDeletion, h]
  rw [if_neg (by simp [hb])]

/-- Claim C4 (witness): the amended theorem applied to a Retain PV and to a
Delete PV. -/
theorem assessPV_policy_verdicts_witness :
    AssessPVDeletion retainCluster "pv-1" =
      .ok { isRisky := false, riskyPVCs := [], message := "", suggestion := "" }
    ∧ ∃ a, AssessPVDeletion mixedCluster "pv-b" = .ok a ∧ a.isRisky = true :=
  ⟨(assessPV_policy_verdicts retainCluster "pv-1"
      { name := "pv-1", reclaimPolicy := "Retain", claimRef := some ("prod", "web") } rfl).1 rfl,
   (assessPV_policy_verdicts mixedCluster "pv-b"
      { name := "pv-b", reclaimPolicy := "Delete", claimRef := some ("staging", "b") } rfl).2.1 rfl⟩

/-- Claim C2 (counterexample): namespace ns1 holds one Bound PVC whose PV
fetch fails, yet the assessment is not risky and records nothing —
the PVC is not recorded as risky with reason "could not verify PV;
refusing". -/
theorem ns_pv_fetch_error_not_recorded_cex :
    AssessNamespaceDeletion pvFetchFailCluster true "ns1" =
      .ok { isRisky := false, riskyPVCs := [], message := "", suggestion := "" }
    ∧ ¬ ∃ a, AssessNamespaceDeletion pvFetchFailCluster true "ns1" = .ok a
        ∧ a.isRisky = true := by
  refine ⟨rfl, ?_⟩
  rintro ⟨a, ha, hr⟩
  have h0 : AssessNamespaceDeletion pvFetchFailCluster true "ns1" =
      .ok { isRisky := false, riskyPVCs := [], message := "", suggestion := "" } := rfl
  rw [h0] at ha
  cases Except.ok.inj ha
  simp at hr

/-- Claim C2 (amended): in the namespace loop, a Bound PVC whose bound-PV
fetch fails is silently skipped (fail open for that PVC): the loop
result is the same as if the PVC were absent from the list. -/
theorem ns_pv_fetch_error_skipped (c : Cluster) (ck : Bool) (l₁ l₂ : List PVC)
    (pvc : PVC) (acc : RiskAssessment)
    (hb : pvc.phase = "Bound")
    (he : ∃ err, c.getPV pvc.volumeName = .error err) :
    nsLoop c ck (l₁ ++ pvc :: l₂) acc = nsLoop c ck (l₁ ++ l₂) acc := by
  induction l₁ generalizing acc with
  | nil =>
    obtain ⟨err, he⟩ := he
    simp [nsLoop, hb, he]
  | cons a l₁ ih =>
    simp only [List.cons_append]
    rw [nsLoop]
    conv_rhs => rw [nsLoop]
    by_cases hp : a.phase ≠ "Bound"
    · rw [if_pos hp, if_pos hp, ih]
    · rw [if_neg hp, if_neg hp]
      cases hg : c.getPV a.volumeName with
      | error e => exact ih acc
      | ok pv =>
        by_cases hr : (isPVCRisky c ck a.ns a.name pv).1 = true
        · simp only [hr, if_true]
          exact ih _
        · simp only [hr, if_false]
          exact ih acc

/-- Claim C2 (witness): the amended skip equation at the concrete fixture. -/
theorem ns_pv_fetch_error_skipped_witness :
    nsLoop pvFetchFailCluster true ([] ++ pvcP1 :: []) { isRisky := false, riskyPVCs := [] } =
      nsLoop pvFetchFailCluster true ([] ++ []) { isRisky := false, riskyPVCs := [] } :=
  ns_pv_fetch_error_skipped pvFetchFailCluster true [] [] pvcP1
    { isRisky := false, riskyPVCs := [] } rfl ⟨"connection refused", rfl⟩

/-- Claim C7: a DELETE request routed to the engine whose assessment returns
an error is allowed (fail open) with message "Risk assessment error
(allowed): cause". -/
theorem engine_error_fail_open (c : Cluster) (ck : Bool) (req : AdmissionRequest)
    (e : String)
    (hop : req.operation = "DELETE")
    (hbyp : hasBypassLabel req = false)
    (herr : assessFor c ck req = some (.error e)) :
    handleAdmissionRequest c ck req =
      { uid := req.uid
        allowed := true
        result := some { message := "Risk assessment error (allowed): " ++ e } } := by
  unfold handleAdmissionRequest
  rw [if_pos hop]
  unfold assessAndDecide
  rw [if_neg (by simp [hbyp])]
  unfold routeByKind
  rw [herr]

/-- Claim C7 (witness): a missing PVC makes the engine error and the request
is allowed with the explanatory message. -/
theorem engine_error_fail_open_witness :
    handleAdmissionRequest deleteNoSnapCluster true errReq =
      { uid := "u7"
        allowed := true
        result := some
          { message :=
              "Risk assessment error (allowed): failed to get PVC prod/ghost: pvc not found" } } :=
  engine_error_fail_open deleteNoSnapCluster true errReq
    "failed to get PVC prod/ghost: pvc not found" rfl rfl rfl

/-- Claim C10: a DELETE request with no prior-object bytes, or whose prior
object has no labels, is not a bypass, proceeds to normal routing, and
the routing result never depends on the prior-object bytes. -/
theorem missing_oldobject_no_bypass (c : Cluster) (ck : Bool) (req : AdmissionRequest)
    (h : req.oldObjectRaw = none ∨ req.oldObjectRaw = some (RawObject.parsed none)) :
    hasBypassLabel req = false
    ∧ (req.operation = "DELETE" →
        handleAdmissionRequest c ck req = routeByKind c ck req)
    ∧ (∀ o, routeByKind c ck { req with oldObjectRaw := o } = routeByKind c ck req) := by
  have hb : hasBypassLabel req = false := by
    rcases h with h | h <;> simp [hasBypassLabel, h]
  refine ⟨hb, fun hop => ?_, fun o => rfl⟩
  unfold handleAdmissionRequest
  rw [if_pos hop]
  unfold assessAndDecide
  rw [if_neg (by simp [hb])]

/-- Claim C10 (witness): the raw-less DELETE request for a PV is not a bypass
and routes normally. -/
theorem missing_oldobject_no_bypass_witness :
    hasBypassLabel noRawReq = false
    ∧ handleAdmissionRequest deleteNoSnapCluster true noRawReq =
        routeByKind deleteNoSnapCluster true noRawReq
    ∧ routeByKind deleteNoSnapCluster true
        { noRawReq with oldObjectRaw := some RawObject.unparseable } =
      routeByKind deleteNoSnapCluster true noRawReq :=
  ⟨(missing_oldobject_no_bypass deleteNoSnapCluster true noRawReq (Or.inl rfl)).1,
   (missing_oldobject_no_bypass deleteNoSnapCluster true noRawReq (Or.inl rfl)).2.1 rfl,
   (missing_oldobject_no_bypass deleteNoSnapCluster true noRawReq (Or.inl rfl)).2.2
     (some RawObject.unparseable)⟩

/-- Claim C1: a non-bypass DELETE request on a PVC Bound to a Delete-policy PV
with no ready Retain snapshot is denied with status Failure, reason
Forbidden, code 403, and message = engine block message (containing
"no snapshot found") followed by the remediation suggestion. -/
theorem pvc_delete_no_snapshot_denied (c : Cluster) (ck : Bool)
    (req : AdmissionRequest) (pvc : PVC) (pv : PV)
    (hop : req.operation = "DELETE")
    (hkind : req.kind = "PersistentVolumeClaim")
    (hbyp : hasBypassLabel req = false)
    (hpvc : c.getPVC req.ns req.name = .ok pvc)
    (hphase : pvc.phase = "Bound")
    (hpv : c.getPV pvc.volumeName = .ok pv)
    (hpol : pv.reclaimPolicy = "Delete")
    (hsnap : HasReadySnapshot c req.ns req.name = .ok none ∨
             ∃ e, HasReadySnapshot c req.ns req.name = .error e) :
    handleAdmissionRequest c ck req =
      { uid := req.uid
        allowed := false
        result := some
          { status := "Failure"
            message :=
              buildPVCBlockMessage
                { name := req.name, ns := req.ns, pvName := pv.name,
                  reason := "PV has Delete reclaim policy, no snapshot found" } ++
              buildPVCSuggestions req.ns req.name pv.name
            reason := "Forbidden"
            code := 403 } }
    ∧ StrContains
        (buildPVCBlockMessage
          { name := req.name, ns := req.ns, pvName := pv.name,
            reason := "PV has Delete reclaim policy, no snapshot found" })
        "no snapshot found" := by
  have hcase : (if ck then HasReadySnapshot c req.ns req.name else Except.ok none) =
        .ok none ∨
      ∃ e, (if ck then HasReadySnapshot c req.ns req.name else Except.ok none) =
        .error e := by
    cases ck with
    | false => exact Or.inl rfl
    | true => simpa using hsnap
  have hrisky : isPVCRisky c ck req.ns req.name pv =
      (true, "PV has Delete reclaim policy, no snapshot found", none) := by
    unfold isPVCRisky
    rw [hpol, if_neg (by decide)]
    rcases hcase with h | ⟨e, h⟩ <;> rw [h] <;> rfl
  have hassess : AssessPVCDeletion c ck req.ns req.name =
      .ok { isRisky := true
            riskyPVCs := [{ name := req.name, ns := req.ns, pvName := pv.name,
                            reason := "PV has Delete reclaim policy, no snapshot found" }]
            message := buildPVCBlockMessage
              { name := req.name, ns := req.ns, pvName := pv.name,
                reason := "PV has Delete reclaim policy, no snapshot found" }
            suggestion := buildPVCSuggestions req.ns req.name pv.name } := by
    simp only [AssessPVCDeletion, hpvc]
    rw [if_neg (by simp [hphase])]
    simp only [hpv, hrisky]
    rfl
  constructor
  · unfold handleAdmissionRequest
    rw [if_pos hop]
    unfold assessAndDecide
    rw [if_neg (by simp [hbyp])]
    unfold routeByKind assessFor
    rw [hkind, hassess]
    rfl
  · refine ⟨"DELETION BLOCKED: PVC \x27" ++ req.ns ++ "/" ++ req.name ++
      "\x27 would lose data permanently\n\nReason: " ++ "PV has Delete reclaim policy, ",
      "\n", ?_⟩
    unfold buildPVCBlockMessage
    simp only [String.append_assoc]
    rfl

/-- Claim C1 (witness): the deny response at the concrete Delete-policy
fixture. -/
theorem pvc_delete_no_snapshot_denied_witness :
    handleAdmissionRequest deleteNoSnapCluster true deletePVCReq =
      { uid := "u1"
        allowed := false
        result := some
          { status := "Failure"
            message :=
              buildPVCBlockMessage
                { name := "db", ns := "prod", pvName := "pv-2",
                  reason := "PV has Delete reclaim policy, no snapshot found" } ++
              buildPVCSuggestions "prod" "db" "pv-2"
            reason := "Forbidden"
            code := 403 } }
    ∧ StrContains
        (buildPVCBlockMessage
          { name := "db", ns := "prod", pvName := "pv-2",
            reason := "PV has Delete reclaim policy, no snapshot found" })
        "no snapshot found" :=
  pvc_delete_no_snapshot_denied deleteNoSnapCluster true deletePVCReq
    { ns := "prod", name := "db", phase := "Bound", volumeName := "pv-2" }
    { name := "pv-2", reclaimPolicy := "Delete", claimRef := none }
    rfl rfl rfl rfl rfl rfl rfl (Or.inl rfl)

/-- Claim C5 (counterexample): PVC prod/web is Bound to Retain PV pv-1; the
DELETE is allowed, but the response message is the fixed string
"Deletion allowed - safe operation", which does not contain "Retain". -/
theorem pvc_retain_message_cex :
    handleAdmissionRequest retainCluster true retainPVCReq =
      { uid := "u5"
        allowed := true
        result := some { message := "Deletion allowed - safe operation" } }
    ∧ ¬ StrContains "Deletion allowed - safe operation" "Retain" := by
  refine ⟨rfl, ?_⟩
  rintro ⟨a, b, hab⟩
  have hR : ('R' : Char) ∈ (a ++ "Retain" ++ b).data := by
    rw [String.data_append, String.data_append]
    refine List.mem_append.mpr (Or.inl (List.mem_append.mpr (Or.inr ?_)))
    decide
  rw [← hab] at hR
  exact absurd hR (by decide)

/-- Claim C5 (amended): a non-bypass DELETE request on a PVC Bound to a
Retain-policy PV is allowed, with the fixed response message
"Deletion allowed - safe operation" (the Retain reason is not echoed in
the response). -/
theorem pvc_retain_allowed (c : Cluster) (ck : Bool)
    (req : AdmissionRequest) (pvc : PVC) (pv : PV)
    (hop : req.operation = "DELETE")
    (hkind : req.kind = "PersistentVolumeClaim")
    (hbyp : hasBypassLabel req = false)
    (hpvc : c.getPVC req.ns req.name = .ok pvc)
    (hphase : pvc.phase = "Bound")
    (hpv : c.getPV pvc.volumeName = .ok pv)
    (hpol : pv.reclaimPolicy = "Retain") :
    handleAdmissionRequest c ck req =
      { uid := req.uid
        allowed := true
        result := some { message := "Deletion allowed - safe operation" } } := by
  have hrisky : isPVCRisky c ck req.ns req.name pv =
      (false, "PV has Retain reclaim policy", none) := by
    unfold isPVCRisky
    rw [hpol, if_pos rfl]
  have hassess : AssessPVCDeletion c ck req.ns req.name =
      .ok { isRisky := false, riskyPVCs := [], message := "", suggestion := "" } := by
    simp only [AssessPVCDeletion, hpvc]
    rw [if_neg (by simp [hphase])]
    simp only [hpv, hrisky]
    rfl
  unfold handleAdmissionRequest
  rw [if_pos hop]
  unfold assessAndDecide
  rw [if_neg (by simp [hbyp])]
  unfold routeByKind assessFor
  rw [hkind, hassess]
  rfl

/-- Claim C5 (witness): amended allow verdict at the concrete Retain fixture. -/
theorem pvc_retain_allowed_witness :
    handleAdmissionRequest retainCluster true retainPVCReq =
      { uid := "u5"
        allowed := true
        result := some { message := "Deletion allowed - safe operation" } } :=
  pvc_retain_allowed retainCluster true retainPVCReq
    { ns := "prod", name := "web", phase := "Bound", volumeName := "pv-1" }
    { name := "pv-1", reclaimPolicy := "Retain", claimRef := some ("prod", "web") }
    rfl rfl rfl rfl rfl rfl rfl

/-- Claim C3: on a DELETE request the bypass fires exactly when the parsed
prior object carries label pv-safe.io/force-delete with string value
"true"; a bypass yields the allow response naming the label, and
otherwise (other values such as "True", absence, no labels, or parse
failure) the normal risk routing proceeds. -/
theorem bypass_label_decides (c : Cluster) (ck : Bool) (req : AdmissionRequest)
    (hop : req.operation = "DELETE") :
    (hasBypassLabel req = true ↔
      ∃ labels, req.oldObjectRaw = some (RawObject.parsed (some labels)) ∧
        lookupLabel labels BypassLabel = some "true")
    ∧ (hasBypassLabel req = true →
        handleAdmissionRequest c ck req =
          { uid := req.uid
            allowed := true
            result := some
              { message := "Deletion allowed via bypass label " ++ BypassLabel } })
    ∧ (hasBypassLabel req = false →
        handleAdmissionRequest c ck req = routeByKind c ck req) := by
  refine ⟨?_, ?_, ?_⟩
  · unfold hasBypassLabel
    cases hro : req.oldObjectRaw with
    | none => simp
    | some ro =>
      cases ro with
      | unparseable => simp
      | parsed lbl =>
        cases lbl with
        | none => simp
        | some labels =>
          cases hlk : lookupLabel labels BypassLabel with
          | none => simp [hlk]
          | some v => simp [hlk]
  · intro h
    unfold handleAdmissionRequest
    rw [if_pos hop]
    unfold assessAndDecide
    rw [if_pos h]
  · intro h
    unfold handleAdmissionRequest
    rw [if_pos hop]
    unfold assessAndDecide
    rw [if_neg (by simp [h])]

/-- Claim C3 (witness): the bypass-labelled request is allowed with the
bypass message. -/
theorem bypass_label_decides_witness :
    handleAdmissionRequest deleteNoSnapCluster true bypassReq =
      { uid := "u3"
        allowed := true
        result := some
          { message := "Deletion allowed via bypass label pv-safe.io/force-delete" } } :=
  (bypass_label_decides deleteNoSnapCluster true bypassReq rfl).2.1 rfl

/-- Claim C6: `HasReadySnapshot` returns the first listed snapshot accepted by
`acceptsSnapshot` (matching source PVC, ready, and resolved class policy
Retain — continuing past non-accepted ones); a snapshot without a class
reference, or whose class lookup fails, resolves to policy Unknown, and
an Unknown policy is never accepted. -/
theorem hasReadySnapshot_spec (c : Cluster) (ns pvcName : String)
    (items : List Snapshot)
    (hl : c.listSnapshots ns = .ok items) :
    HasReadySnapshot c ns pvcName =
      .ok ((items.find? (acceptsSnapshot c pvcName)).map
        (fun s => mkSnapshotInfo c s pvcName))
    ∧ (∀ s : Snapshot, acceptsSnapshot c pvcName s = true ↔
        (s.sourcePVC = some pvcName ∧ s.ready = true ∧
          resolveDeletionPolicy c s = "Retain"))
    ∧ (∀ s : Snapshot, s.className = none →
        resolveDeletionPolicy c s = UnknownDeletionPolicy)
    ∧ (∀ s : Snapshot, ∀ cn : String, s.className = some cn →
        (∃ e, c.getSnapshotClass cn = .error e) →
        resolveDeletionPolicy c s = UnknownDeletionPolicy)
    ∧ (∀ s : Snapshot, resolveDeletionPolicy c s = UnknownDeletionPolicy →
        acceptsSnapshot c pvcName s = false) := by
  refine ⟨?_, ?_, ?_, ?_, ?_⟩
  · simp only [HasReadySnapshot, hl]
    rw [findReadyRetain_eq_find]
  · intro s
    simp [acceptsSnapshot, and_assoc]
  · intro s h
    simp [resolveDeletionPolicy, h]
  · rintro s cn hcn ⟨e, he⟩
    by_cases hemp : cn = ""
    · simp [resolveDeletionPolicy, hcn, hemp]
    · simp [resolveDeletionPolicy, hcn, hemp, getSnapshotClassDeletionPolicy, he]
  · intro s h
    have hne : (resolveDeletionPolicy c s == "Retain") = false := by
      rw [h]; rfl
    simp [acceptsSnapshot, hne]

/-- Claim C6 (witness): on the fixture the search skips the ready snapshot
with a Delete-policy class and accepts the next one, snap-1, whose class
policy is Retain. -/
theorem hasReadySnapshot_spec_witness :
    HasReadySnapshot snapCluster "prod" "db" =
      .ok ((snapList.find? (acceptsSnapshot snapCluster "db")).map
        (fun s => mkSnapshotInfo snapCluster s "db"))
    ∧ HasReadySnapshot snapCluster "prod" "db" =
      .ok (some { name := "snap-1", ns := "prod", sourcePVC := "db", isReady := true,
                  deletionPolicy := "Retain", creationTime := 2, restoreSize := "1Gi" }) :=
  ⟨(hasReadySnapshot_spec snapCluster "prod" "db" snapList rfl).1, rfl⟩

theorem resolveDeletionPolicy_congr (c₁ c₂ : Cluster)
    (hsc : c₁.getSnapshotClass = c₂.getSnapshotClass) (s : Snapshot) :
    resolveDeletionPolicy c₁ s = resolveDeletionPolicy c₂ s := by
  unfold resolveDeletionPolicy getSnapshotClassDeletionPolicy
  rw [hsc]

theorem findReadyRetain_congr (c₁ c₂ : Cluster)
    (hsc : c₁.getSnapshotClass = c₂.getSnapshotClass) (pvcName : String)
    (items : List Snapshot) :
    findReadyRetainSnapshot c₁ pvcName items =
      findReadyRetainSnapshot c₂ pvcName items := by
  induction items with
  | nil => rfl
  | cons s rest ih =>
    rw [findReadyRetainSnapshot]
    conv_rhs => rw [findReadyRetainSnapshot]
    cases hs : s.sourcePVC with
    | none => exact ih
    | some src =>
      have h1 := resolveDeletionPolicy_congr c₁ c₂ hsc s
      by_cases he : src = pvcName
      · subst he
        by_cases hr : s.ready = true
        · by_cases hpol : resolveDeletionPolicy c₂ s = "Retain"
          · simp [hr, hpol, h1, mkSnapshotInfo]
          · simp [hr, hpol, h1, ih]
        · have hrf : s.ready = false := Bool.eq_false_iff.mpr hr
          simp [hrf, ih]
      · simp [he, ih]

theorem HasReadySnapshot_congr (c₁ c₂ : Cluster)
    (hls : c₁.listSnapshots = c₂.listSnapshots)
    (hsc : c₁.getSnapshotClass = c₂.getSnapshotClass) (ns pvcName : String) :
    HasReadySnapshot c₁ ns pvcName = HasReadySnapshot c₂ ns pvcName := by
  unfold HasReadySnapshot
  rw [hls]
  cases hx : c₂.listSnapshots ns with
  | error e => simp [hx]
  | ok items => simp [hx, findReadyRetain_congr c₁ c₂ hsc pvcName items]

theorem isPVCRisky_congr (c₁ c₂ : Cluster) (ck : Bool) (ns name : String) (pv : PV)
    (hls : c₁.listSnapshots = c₂.listSnapshots)
    (hsc : c₁.getSnapshotClass = c₂.getSnapshotClass) :
    isPVCRisky c₁ ck ns name pv = isPVCRisky c₂ ck ns name pv := by
  unfold isPVCRisky
  rw [HasReadySnapshot_congr c₁ c₂ hls hsc ns name]

theorem pvcDeniedB_congr (c₁ c₂ : Cluster) (ck : Bool)
    (hpv : c₁.getPV = c₂.getPV)
    (hls : c₁.listSnapshots = c₂.listSnapshots)
    (hsc : c₁.getSnapshotClass = c₂.getSnapshotClass) :
    pvcDeniedB c₁ ck = pvcDeniedB c₂ ck := by
  funext pvc
  unfold pvcDeniedB
  rw [hpv]
  cases hx : c₂.getPV pvc.volumeName with
  | error e => simp [hx]
  | ok pv => simp [hx, isPVCRisky_congr c₁ c₂ ck pvc.ns pvc.name pv hls hsc]

/-- Claim C8: permuting the PVC list returned by the list call, with the rest
of the cluster state fixed, does not change the risky verdict of
`AssessNamespaceDeletion`. -/
theorem ns_verdict_perm_invariant (c : Cluster) (ck : Bool) (ns : String)
    (l l' : List PVC) (hp : l.Perm l') :
    (AssessNamespaceDeletion { c with listPVCs := fun _ => Except.ok l } ck ns).map
        RiskAssessment.isRisky =
      (AssessNamespaceDeletion { c with listPVCs := fun _ => Except.ok l' } ck ns).map
        RiskAssessment.isRisky := by
  have h1 : AssessNamespaceDeletion { c with listPVCs := fun _ => Except.ok l } ck ns =
      Except.ok
        (assessNamespaceWithList { c with listPVCs := fun _ => Except.ok l } ck ns l) := rfl
  have h2 : AssessNamespaceDeletion { c with listPVCs := fun _ => Except.ok l' } ck ns =
      Except.ok
        (assessNamespaceWithList { c with listPVCs := fun _ => Except.ok l' } ck ns l') := rfl
  rw [h1, h2]
  simp only [Except.map]
  rw [assessNamespaceWithList_isRisky, assessNamespaceWithList_isRisky]
  have hfun : pvcDeniedB { c with listPVCs := fun _ => Except.ok l } ck =
      pvcDeniedB { c with listPVCs := fun _ => Except.ok l' } ck :=
    pvcDeniedB_congr _ _ ck rfl rfl rfl
  rw [hfun]
  exact congrArg Except.ok (listAny_perm _ hp)

/-- Claim C8 (witness): swapping the two staging PVCs leaves the verdict
unchanged. -/
theorem ns_verdict_perm_invariant_witness :
    (AssessNamespaceDeletion { mixedCluster with listPVCs := fun _ => Except.ok [pvcA, pvcB] }
        true "staging").map RiskAssessment.isRisky =
      (AssessNamespaceDeletion { mixedCluster with listPVCs := fun _ => Except.ok [pvcB, pvcA] }
        true "staging").map RiskAssessment.isRisky :=
  ns_verdict_perm_invariant mixedCluster true "staging" [pvcA, pvcB] [pvcB, pvcA]
    (List.Perm.swap pvcB pvcA [])

/-- Claim C9: for every successful PVC or namespace assessment, the risky-PVC
list is non-empty exactly when the risky flag is set. -/
theorem risky_iff_nonempty (c : Cluster) (ck : Bool) (ns name : String)
    (a a' : RiskAssessment) :
    (AssessPVCDeletion c ck ns name = .ok a →
      (a.isRisky = true ↔ a.riskyPVCs ≠ []))
    ∧ (AssessNamespaceDeletion c ck ns = .ok a' →
        (a'.isRisky = true ↔ a'.riskyPVCs ≠ [])) := by
  constructor
  · intro h
    cases hg : c.getPVC ns name with
    | error e =>
      simp only [AssessPVCDeletion, hg] at h
      simp at h
    | ok pvc =>
      by_cases hph : pvc.phase = "Bound"
      · simp only [AssessPVCDeletion, hg] at h
        rw [if_neg (by simp [hph])] at h
        cases hpv : c.getPV pvc.volumeName with
        | error e =>
          simp only [hpv] at h
          simp at h
        | ok pv =>
          simp only [hpv] at h
          by_cases hr : (isPVCRisky c ck ns name pv).1 = true
          · rw [if_pos hr] at h
            cases Except.ok.inj h
            simp
          · rw [if_neg hr] at h
            cases Except.ok.inj h
            simp
      · simp only [AssessPVCDeletion, hg] at h
        rw [if_pos hph] at h
        cases Except.ok.inj h
        simp
  · intro h
    cases hl : c.listPVCs ns with
    | error e =>
      simp only [AssessNamespaceDeletion, hl] at h
      simp at h
    | ok pvcs =>
      simp only [AssessNamespaceDeletion, hl] at h
      cases Except.ok.inj h
      unfold assessNamespaceWithList
      by_cases hz : pvcs.length = 0
      · rw [if_pos hz]
        simp
      · rw [if_neg hz]
        have hloop := nsLoop_risky_iff c ck pvcs { isRisky := false, riskyPVCs := [] }
          (by simp)
        by_cases hr : (nsLoop c ck pvcs { isRisky := false, riskyPVCs := [] }).isRisky = true
        · have hne := hloop.mp hr
          simp [hr, hne]
        · have hrf : (nsLoop c ck pvcs { isRisky := false, riskyPVCs := [] }).isRisky = false :=
            Bool.eq_false_iff.mpr hr
          have hemp : (nsLoop c ck pvcs { isRisky := false, riskyPVCs := [] }).riskyPVCs = [] := by
            by_contra hne
            exact hr (hloop.mpr hne)
          simp [hrf, hemp]

/-- Claim C9 (witness): the invariant instantiated at an unbound-PVC
assessment and an empty-namespace assessment. -/
theorem risky_iff_nonempty_witness :
    (unboundAssessment.isRisky = true ↔ unboundAssessment.riskyPVCs ≠ [])
    ∧ (emptyNsAssessment.isRisky = true ↔ emptyNsAssessment.riskyPVCs ≠ []) :=
  ⟨(risky_iff_nonempty unboundCluster true "prod" "pending"
      unboundAssessment emptyNsAssessment).1 rfl,
   (risky_iff_nonempty unboundCluster true "prod" "pending"
      unboundAssessment emptyNsAssessment).2 rfl⟩

end PVSafe
